import Mathlib

/-!
Verification of the python-gitlab resource bindings in
`gitlab/v4/objects/issues.py`, `gitlab/v4/objects/container_registry.py` and
`gitlab/v4/objects/iterations.py`.

The embedding is shallow: attribute dictionaries become association lists
over a small `Value` type, HTTP requests become records, and each operation
of the source becomes a pure Lean function returning the trace of requests
it issues together with its result.  Declarative class data (`_path`,
`_from_parent_attrs`, `_list_filters`, `_create_attrs`, `_id_attr`) is
transcribed verbatim from the source files.  Behaviour that lives in the
shared base/mixin layer (`gitlab/base.py`, `gitlab/mixins.py`) is not part
of the given sources; those definitions are modelled from the spec and say
so in their doc comments.
-/

namespace Gitlab

/-- Attribute values carried in request/response dictionaries. -/
inductive Value where
  | str : String → Value
  | int : Int → Value
  | bool : Bool → Value
deriving DecidableEq, Repr

/-- A Python-style string rendering of a value, as used when a value is
interpolated into a URL path. -/
def Value.toStr : Value → String
  | .str s => s
  | .int n => toString n
  | .bool b => toString b

/-- An attribute dictionary (insertion-ordered, first binding wins on
lookup, like the Python dicts in the source). -/
abbrev AttrMap := List (String × Value)

/-- HTTP verbs used by the operations in these files. -/
inductive Method where
  | get
  | post
  | put
  | delete
deriving DecidableEq, Repr

/-- One outgoing HTTP request, as handed to the transport layer
(`gitlab.http_get` / `http_post` / `http_delete`). `kwargs` are the extra
keyword arguments forwarded unchanged to the transport. -/
structure HttpRequest where
  method : Method
  path : String
  query_data : AttrMap
  post_data : AttrMap
  kwargs : AttrMap
deriving DecidableEq, Repr

/-! ## Path templating

A `_path` class attribute such as `"/projects/%(project_id)s/issues"` is a
`%`-format template.  We embed it as a list of segments, literal text
alternating with named placeholders; `rawTemplate` recovers the exact
source string, which is checked below for every manager. -/

/-- A segment of a `%`-format path template: literal text or a named
`%(name)s` placeholder. -/
inductive Seg where
  | lit : String → Seg
  | ph : String → Seg
deriving DecidableEq, Repr

/-- The source text of a segment. -/
def Seg.raw : Seg → String
  | .lit s => s
  | .ph n => "%(" ++ n ++ ")s"

/-- Whether a segment is an unresolved placeholder. -/
def Seg.isPh : Seg → Bool
  | .lit _ => false
  | .ph _ => true

/-- The source text of a segment-list template. -/
def rawTemplate : List Seg → String
  | [] => ""
  | s :: rest => s.raw ++ rawTemplate rest

/-- The placeholder names occurring in a template. -/
def placeholders (segs : List Seg) : List String :=
  segs.filterMap fun s => match s with
    | .ph n => some n
    | .lit _ => none

/-- Whether a template still contains an unresolved placeholder. -/
def hasPh (segs : List Seg) : Bool :=
  segs.any Seg.isPh

/-- Modelled from the spec: the `%`-substitution performed by the base
manager layer (`gitlab/base.py`, not under `src/`).  Every placeholder is
replaced by the string rendering of the bound attribute; a placeholder with
no binding is a detectable error (spec 4.1: failure to resolve is a
configuration error). -/
def renderSegs (attrs : AttrMap) : List Seg → Except String (List Seg)
  | [] => .ok []
  | .lit s :: rest => (renderSegs attrs rest).map (fun out => .lit s :: out)
  | .ph n :: rest =>
    match attrs.lookup n with
    | some v => (renderSegs attrs rest).map (fun out => .lit v.toStr :: out)
    | none => .error n

/-- Path resolution as a string: substitute and flatten. -/
def render (attrs : AttrMap) (segs : List Seg) : Except String String :=
  (renderSegs attrs segs).map rawTemplate

/-- Modelled from the spec: construction of a child manager from a parent
object (`gitlab/base.py`, not under `src/`).  Each entry `(k, pk)` of
`_from_parent_attrs` copies the parent's attribute `pk` into the manager's
own binding `k`; a missing parent attribute is a detectable error. -/
def bindingsFromParent : List (String × String) → AttrMap → Except String AttrMap
  | [], _ => .ok []
  | (k, pk) :: rest, parent =>
    match parent.lookup pk with
    | some v => (bindingsFromParent rest parent).map (fun b => (k, v) :: b)
    | none => .error pk

/-- Full path computation for a manager: copy the parent attributes, then
substitute them into the template. -/
def computeSegs (fpa : List (String × String)) (segs : List Seg)
    (parent : AttrMap) : Except String (List Seg) :=
  (bindingsFromParent fpa parent).bind fun b => renderSegs b segs

/-- Full path computation, flattened to the request path string. -/
def computePath (fpa : List (String × String)) (segs : List Seg)
    (parent : AttrMap) : Except String String :=
  (computeSegs fpa segs parent).map rawTemplate

/-! ## Declarative class data, transcribed from the source files

Each manager class contributes its `_path` template (as segments whose
flattening is checked against the source string), its `_from_parent_attrs`
mapping, and where present its `_list_filters` and `_create_attrs`. -/

/-- `_create_attrs` / `_update_attrs` schema (`RequiredOptional` from
`gitlab/base.py`): the required and the optional field names. -/
structure RequiredOptional where
  required : List String
  optional : List String
deriving DecidableEq, Repr

/-- `IssueManager._path` (issues.py). -/
def IssueManager.path : List Seg := [.lit "/issues"]

/-- `IssueManager` has no `_from_parent_attrs`. -/
def IssueManager.from_parent_attrs : List (String × String) := []

/-- `IssueManager._list_filters` (issues.py). -/
def IssueManager.list_filters : List String :=
  ["state", "labels", "milestone", "scope", "author_id", "assignee_id",
   "my_reaction_emoji", "iids", "order_by", "sort", "search",
   "created_after", "created_before", "updated_after", "updated_before"]

/-- `GroupIssueManager._path` (issues.py). -/
def GroupIssueManager.path : List Seg :=
  [.lit "/groups/", .ph "group_id", .lit "/issues"]

/-- `GroupIssueManager._from_parent_attrs` (issues.py). -/
def GroupIssueManager.from_parent_attrs : List (String × String) :=
  [("group_id", "id")]

/-- `GroupIssueManager._list_filters` (issues.py). -/
def GroupIssueManager.list_filters : List String :=
  ["state", "labels", "milestone", "order_by", "sort", "iids", "author_id",
   "assignee_id", "my_reaction_emoji", "search", "created_after",
   "created_before", "updated_after", "updated_before"]

/-- `ProjectIssueManager._path` (issues.py). -/
def ProjectIssueManager.path : List Seg :=
  [.lit "/projects/", .ph "project_id", .lit "/issues"]

/-- `ProjectIssueManager._from_parent_attrs` (issues.py). -/
def ProjectIssueManager.from_parent_attrs : List (String × String) :=
  [("project_id", "id")]

/-- `ProjectIssueManager._list_filters` (issues.py). -/
def ProjectIssueManager.list_filters : List String :=
  ["iids", "state", "labels", "milestone", "scope", "author_id",
   "assignee_id", "my_reaction_emoji", "order_by", "sort", "search",
   "created_after", "created_before", "updated_after", "updated_before"]

/-- `ProjectIssueManager._create_attrs` (issues.py). -/
def ProjectIssueManager.create_attrs : RequiredOptional :=
  { required := ["title"],
    optional := ["description", "confidential", "assignee_ids",
      "assignee_id", "milestone_id", "labels", "created_at", "due_date",
      "merge_request_to_resolve_discussions_of", "discussion_to_resolve"] }

/-- `ProjectIssueManager._update_attrs` (issues.py). -/
def ProjectIssueManager.update_attrs : RequiredOptional :=
  { required := [],
    optional := ["title", "description", "confidential", "assignee_ids",
      "assignee_id", "milestone_id", "labels", "state_event", "updated_at",
      "due_date", "discussion_locked"] }

/-- `ProjectIssueLinkManager._path` (issues.py). -/
def ProjectIssueLinkManager.path : List Seg :=
  [.lit "/projects/", .ph "project_id", .lit "/issues/", .ph "issue_iid",
   .lit "/links"]

/-- `ProjectIssueLinkManager._from_parent_attrs` (issues.py). -/
def ProjectIssueLinkManager.from_parent_attrs : List (String × String) :=
  [("project_id", "project_id"), ("issue_iid", "iid")]

/-- `ProjectIssueLinkManager._create_attrs` (issues.py). -/
def ProjectIssueLinkManager.create_attrs : RequiredOptional :=
  { required := ["target_project_id", "target_issue_iid"], optional := [] }

/-- `ProjectRegistryRepositoryManager._path` (container_registry.py). -/
def ProjectRegistryRepositoryManager.path : List Seg :=
  [.lit "/projects/", .ph "project_id", .lit "/registry/repositories"]

/-- `ProjectRegistryRepositoryManager._from_parent_attrs`
(container_registry.py). -/
def ProjectRegistryRepositoryManager.from_parent_attrs :
    List (String × String) :=
  [("project_id", "id")]

/-- `ProjectRegistryTagManager._path` (container_registry.py). -/
def ProjectRegistryTagManager.path : List Seg :=
  [.lit "/projects/", .ph "project_id", .lit "/registry/repositories/",
   .ph "repository_id", .lit "/tags"]

/-- `ProjectRegistryTagManager._from_parent_attrs` (container_registry.py). -/
def ProjectRegistryTagManager.from_parent_attrs : List (String × String) :=
  [("project_id", "project_id"), ("repository_id", "id")]

/-- `GroupIterationManager._path` (iterations.py). -/
def GroupIterationManager.path : List Seg :=
  [.lit "/groups/", .ph "group_id", .lit "/iterations"]

/-- `GroupIterationManager._from_parent_attrs` (iterations.py). -/
def GroupIterationManager.from_parent_attrs : List (String × String) :=
  [("group_id", "id")]

/-- `GroupIterationManager._list_filters` (iterations.py). -/
def GroupIterationManager.list_filters : List String :=
  ["state", "iids", "search", "created_after", "created_before",
   "updated_after", "updated_before"]

/-! ## Identifier attributes (`_id_attr`) -/

/-- Modelled from the spec: the default identifier field of `RESTObject`
(`gitlab/base.py`, not under `src/`) is `"id"` (spec 3: default "id", can
be overridden). -/
def RESTObject.id_attr : String := "id"

/-- `ProjectIssue._id_attr` (issues.py). -/
def ProjectIssue.id_attr : String := "iid"

/-- `ProjectIssueLink._id_attr` (issues.py). -/
def ProjectIssueLink.id_attr : String := "issue_link_id"

/-- `ProjectRegistryTag._id_attr` (container_registry.py). -/
def ProjectRegistryTag.id_attr : String := "name"

/-- Modelled from the spec: `RESTObject.get_id` (`gitlab/base.py`, not
under `src/`) reads the object's identifier attribute (spec 3: a resource
object is identified by a configurable identifier field name). -/
def get_id (idAttr : String) (attrs : AttrMap) : Option Value :=
  attrs.lookup idAttr

/-! ## Operations

Each operation returns the list of HTTP requests it issues (in order)
together with its result; a validation failure before the network is an
`Except.error` with an empty request list.  The server's answer to the one
request an operation makes is passed in as an explicit oracle argument. -/

/-- Modelled from the spec: the required-field check of the create/update
mixins (`RESTManager._check_missing_create_attrs` in `gitlab/base.py`, not
under `src/`).  Spec 4.2: a descriptive failure naming the missing required
field(s), before any request is sent. -/
def checkMissingCreateAttrs (ro : RequiredOptional) (data : AttrMap) :
    Except String Unit :=
  let missing := ro.required.filter fun k => (data.lookup k).isNone
  if missing.isEmpty then .ok ()
  else .error ("Missing attributes: " ++ String.intercalate ", " missing)

/-- Modelled from the spec: attribute filtering for create/update
(`gitlab/mixins.py`, not under `src/`).  Spec 4.2: silently drop any field
not in the declared optional/required set. -/
def filterKnownAttrs (ro : RequiredOptional) (data : AttrMap) : AttrMap :=
  data.filter fun kv => ro.required.contains kv.1 || ro.optional.contains kv.1

/-- Modelled from the spec: `CreateMixin.create` (`gitlab/mixins.py`, not
under `src/`).  Spec 4.2/4.3: validate required fields (rejecting before
any network call), filter the data to the declared fields, then issue
exactly one POST and build the object from the JSON response. -/
def createOp (ro : RequiredOptional) (path : String) (data : AttrMap)
    (kwargs : AttrMap) (serverData : AttrMap) :
    List HttpRequest × Except String AttrMap :=
  match checkMissingCreateAttrs ro data with
  | .error e => ([], .error e)
  | .ok _ =>
    ([{ method := .post, path := path, query_data := [],
        post_data := filterKnownAttrs ro data, kwargs := kwargs }],
     .ok serverData)

/-- Modelled from the spec: the query built by `ListMixin.list`
(`gitlab/mixins.py`, not under `src/`).  Spec 8: list filters outside the
declared allow-list are excluded from the outgoing query. -/
def listQuery (filters : List String) (kwargs : AttrMap) : AttrMap :=
  kwargs.filter fun kv => filters.contains kv.1

/-- Modelled from the spec: `ListMixin.list` issues one GET with the
filtered query (spec 4.3: exactly one network call per logical
operation). -/
def listOp (filters : List String) (path : String) (kwargs : AttrMap) :
    HttpRequest :=
  { method := .get, path := path, query_data := listQuery filters kwargs,
    post_data := [], kwargs := kwargs }

/-- `valid_attrs` of `ProjectRegistryTagManager.delete_in_bulk`
(container_registry.py line 53). -/
def delete_in_bulk_valid_attrs : List String :=
  ["keep_n", "name_regex_keep", "older_than"]

/-- `ProjectRegistryTagManager.delete_in_bulk` (container_registry.py lines
37-56): build `data` from the `name_regex` parameter (default `".*"`) plus
the keyword arguments whose key is in `valid_attrs`, then call
`http_delete(self.path, query_data=data, **kwargs)`. -/
def delete_in_bulk (path : String) (name_regex : String) (kwargs : AttrMap) :
    HttpRequest :=
  { method := .delete, path := path,
    query_data := ("name_regex", Value.str name_regex) ::
      kwargs.filter (fun kv => delete_in_bulk_valid_attrs.contains kv.1),
    post_data := [], kwargs := kwargs }

/-- Modelled from the spec: `RESTObject._update_attrs` (`gitlab/base.py`,
not under `src/`).  Spec 3: after an update the object's attributes reflect
the last fetched or updated server state. -/
def update_attrs (serverData : AttrMap) : AttrMap := serverData

/-- `ProjectIssue.move` (issues.py lines 119-133): POST to
`{manager path}/{id}/move` with body `to_project_id`, then update the local
attributes from the server data.  Returns the requests issued and the
issue's new attribute map. -/
def ProjectIssue.move (managerPath : String) (issue : AttrMap)
    (to_project_id : Value) (kwargs : AttrMap) (serverData : AttrMap) :
    Except String (List HttpRequest × AttrMap) :=
  match get_id ProjectIssue.id_attr issue with
  | none => .error "no id"
  | some i =>
    .ok ([{ method := .post,
            path := managerPath ++ "/" ++ i.toStr ++ "/move",
            query_data := [], post_data := [("to_project_id", to_project_id)],
            kwargs := kwargs }],
         update_attrs serverData)

/-- `ProjectIssue.related_merge_requests` (issues.py lines 137-151): one
GET to `{manager path}/{id}/related_merge_requests`, returning the
deserialized server response directly; the issue's attributes are returned
unchanged. -/
def ProjectIssue.related_merge_requests (managerPath : String)
    (issue : AttrMap) (kwargs : AttrMap) (serverData : List AttrMap) :
    Except String (List HttpRequest × AttrMap × List AttrMap) :=
  match get_id ProjectIssue.id_attr issue with
  | none => .error "no id"
  | some i =>
    .ok ([{ method := .get,
            path := managerPath ++ "/" ++ i.toStr ++ "/related_merge_requests",
            query_data := [], post_data := [], kwargs := kwargs }],
         issue, serverData)

/-- `ProjectIssue.closed_by` (issues.py lines 155-169): one GET to
`{manager path}/{id}/closed_by`, returning the deserialized server
response directly; the issue's attributes are returned unchanged. -/
def ProjectIssue.closed_by (managerPath : String) (issue : AttrMap)
    (kwargs : AttrMap) (serverData : List AttrMap) :
    Except String (List HttpRequest × AttrMap × List AttrMap) :=
  match get_id ProjectIssue.id_attr issue with
  | none => .error "no id"
  | some i =>
    .ok ([{ method := .get,
            path := managerPath ++ "/" ++ i.toStr ++ "/closed_by",
            query_data := [], post_data := [], kwargs := kwargs }],
         issue, serverData)

/-- The JSON object answering a link-creation POST: it carries a
`source_issue` and a `target_issue` object. -/
structure LinkServerData where
  source_issue : AttrMap
  target_issue : AttrMap
deriving DecidableEq, Repr

/-- `ProjectIssueLinkManager.create` (issues.py lines 237-256): check the
required create attributes, POST the data unfiltered, and return the pair
of issues built from the response's `source_issue` and `target_issue`
fields, in that order. -/
def ProjectIssueLinkManager.create (path : String) (data : AttrMap)
    (kwargs : AttrMap) (serverData : LinkServerData) :
    List HttpRequest × Except String (AttrMap × AttrMap) :=
  match checkMissingCreateAttrs ProjectIssueLinkManager.create_attrs data with
  | .error e => ([], .error e)
  | .ok _ =>
    ([{ method := .post, path := path, query_data := [], post_data := data,
        kwargs := kwargs }],
     .ok (serverData.source_issue, serverData.target_issue))

/-- All managers defined in the three source files, as pairs of their
`_from_parent_attrs` mapping and their `_path` template. -/
def allManagers : List (List (String × String) × List Seg) :=
  [(IssueManager.from_parent_attrs, IssueManager.path),
   (GroupIssueManager.from_parent_attrs, GroupIssueManager.path),
   (ProjectIssueManager.from_parent_attrs, ProjectIssueManager.path),
   (ProjectIssueLinkManager.from_parent_attrs, ProjectIssueLinkManager.path),
   (ProjectRegistryRepositoryManager.from_parent_attrs,
    ProjectRegistryRepositoryManager.path),
   (ProjectRegistryTagManager.from_parent_attrs,
    ProjectRegistryTagManager.path),
   (GroupIterationManager.from_parent_attrs, GroupIterationManager.path)]

/-! ## Sanity checks: the segment templates spell the source strings -/

example : rawTemplate IssueManager.path = "/issues" := by decide

example : rawTemplate GroupIssueManager.path =
    "/groups/%(group_id)s/issues" := by decide

example : rawTemplate ProjectIssueManager.path =
    "/projects/%(project_id)s/issues" := by decide

example : rawTemplate ProjectIssueLinkManager.path =
    "/projects/%(project_id)s/issues/%(issue_iid)s/links" := by decide

example : rawTemplate ProjectRegistryRepositoryManager.path =
    "/projects/%(project_id)s/registry/repositories" := by decide

example : rawTemplate ProjectRegistryTagManager.path =
    "/projects/%(project_id)s/registry/repositories/%(repository_id)s/tags" :=
  by decide

example : rawTemplate GroupIterationManager.path =
    "/groups/%(group_id)s/iterations" := by decide

/-! ## Helper lemmas -/

/-- The required-field check succeeds exactly when every required key is
present in the data. -/
theorem checkMissingCreateAttrs_ok_iff (ro : RequiredOptional)
    (data : AttrMap) :
    checkMissingCreateAttrs ro data = .ok () ↔
      ∀ k ∈ ro.required, (data.lookup k).isSome := by
  simp only [checkMissingCreateAttrs]
  split
  · rename_i h
    simp only [List.isEmpty_eq_true, List.filter_eq_nil_iff] at h
    constructor
    · intro _ k hk
      have := h k hk
      simpa [Option.isNone_iff_eq_none, ← Option.ne_none_iff_isSome]
        using this
    · intro _
      rfl
  · rename_i h
    rw [Bool.not_eq_true, List.isEmpty_eq_false] at h
    rw [ne_eq, List.filter_eq_nil_iff] at h
    push_neg at h
    obtain ⟨k, hk, hnone⟩ := h
    constructor
    · intro hcontra
      exact absurd hcontra (by simp)
    · intro hall
      have hs := hall k hk
      simp only [Option.isNone_iff_eq_none] at hnone
      rw [hnone] at hs
      simp at hs

/-- The required-field check either succeeds or fails with an error. -/
theorem checkMissingCreateAttrs_cases (ro : RequiredOptional)
    (data : AttrMap) :
    checkMissingCreateAttrs ro data = .ok () ∨
      ∃ e, checkMissingCreateAttrs ro data = .error e := by
  simp only [checkMissingCreateAttrs]
  split
  · exact Or.inl rfl
  · exact Or.inr ⟨_, rfl⟩

/-- If some required key is missing, the check fails with an error. -/
theorem checkMissingCreateAttrs_error (ro : RequiredOptional)
    (data : AttrMap) (k : String) (hk : k ∈ ro.required)
    (hmiss : data.lookup k = none) :
    ∃ e, checkMissingCreateAttrs ro data = .error e := by
  rcases checkMissingCreateAttrs_cases ro data with hok | herr
  · have := (checkMissingCreateAttrs_ok_iff ro data).mp hok k hk
    rw [hmiss] at this
    simp at this
  · exact herr

/-! ## Claim theorems -/

/-- C2: `delete_in_bulk` with no optional arguments sends exactly the query
`name_regex = ".*"`; with arguments it sends exactly `name_regex` (given or
default) plus exactly the supplied keys among `keep_n`, `name_regex_keep`,
`older_than`, and no other key. -/
theorem C2_delete_in_bulk_query (path nr : String) (kwargs : AttrMap) :
    (delete_in_bulk path ".*" []).query_data =
        [("name_regex", Value.str ".*")] ∧
    (delete_in_bulk path nr kwargs).query_data =
        ("name_regex", Value.str nr) ::
          kwargs.filter (fun kv => delete_in_bulk_valid_attrs.contains kv.1) ∧
    ∀ k v, ((k, v) ∈ (delete_in_bulk path nr kwargs).query_data ↔
        (k, v) = ("name_regex", Value.str nr) ∨
          ((k, v) ∈ kwargs ∧ k ∈ delete_in_bulk_valid_attrs)) := by
  refine ⟨rfl, rfl, ?_⟩
  intro k v
  simp [delete_in_bulk, List.mem_filter]

/-- C9: `delete_in_bulk` forwards every keyword argument unchanged to the
transport call; an argument among `keep_n`, `name_regex_keep`, `older_than`
additionally appears in the query data, while any other keyword argument is
excluded from the query data but still forwarded. -/
theorem C9_delete_in_bulk_kwargs (path nr : String) (kwargs : AttrMap)
    (hnr : kwargs.lookup "name_regex" = none) :
    (delete_in_bulk path nr kwargs).kwargs = kwargs ∧
    ∀ k v, (k, v) ∈ kwargs →
      ((k, v) ∈ (delete_in_bulk path nr kwargs).kwargs ∧
       (k ∈ delete_in_bulk_valid_attrs →
         (k, v) ∈ (delete_in_bulk path nr kwargs).query_data) ∧
       (k ∉ delete_in_bulk_valid_attrs →
         (k, v) ∉ (delete_in_bulk path nr kwargs).query_data)) := by
  refine ⟨rfl, ?_⟩
  intro k v hkv
  have hkne : ¬("name_regex" = k) := by
    have := List.lookup_eq_none_iff.mp hnr (k, v) hkv
    simpa using this
  refine ⟨hkv, ?_, ?_⟩
  · intro hvalid
    exact List.mem_cons.mpr
      (Or.inr (List.mem_filter.mpr ⟨hkv, by simp [hvalid]⟩))
  · intro hnvalid hmem
    rcases List.mem_cons.mp hmem with heq | hfil
    · exact hkne (congrArg Prod.fst heq).symm
    · have hpred := (List.mem_filter.mp hfil).2
      simp at hpred
      exact hnvalid hpred

/-- C9 witness at a concrete call: `keep_n` lands in both the query data
and the forwarded kwargs, `sudo` only in the forwarded kwargs. -/
theorem C9_witness :
    ([("keep_n", Value.int 5), ("sudo", Value.str "u")] :
        AttrMap).lookup "name_regex" = none ∧
    (delete_in_bulk "/p" ".*"
        [("keep_n", Value.int 5), ("sudo", Value.str "u")]).kwargs =
      [("keep_n", Value.int 5), ("sudo", Value.str "u")] := by
  refine ⟨by decide, ?_⟩
  exact (C9_delete_in_bulk_kwargs "/p" ".*"
    [("keep_n", Value.int 5), ("sudo", Value.str "u")] (by decide)).1

/-- C8: the identifier field is configurable per resource: a
`ProjectRegistryTag` is identified by `name`, a `ProjectIssue` by `iid`, a
`ProjectIssueLink` by `issue_link_id`, overriding the default `id`. -/
theorem C8_id_attrs (vid vname viid vlink : Value) :
    ProjectRegistryTag.id_attr = "name" ∧
    ProjectIssue.id_attr = "iid" ∧
    ProjectIssueLink.id_attr = "issue_link_id" ∧
    RESTObject.id_attr = "id" ∧
    get_id ProjectRegistryTag.id_attr [("id", vid), ("name", vname)] =
      some vname ∧
    get_id ProjectIssue.id_attr [("id", vid), ("iid", viid)] = some viid ∧
    get_id ProjectIssueLink.id_attr
      [("id", vid), ("issue_link_id", vlink)] = some vlink ∧
    get_id RESTObject.id_attr [("id", vid)] = some vid := by
  refine ⟨rfl, rfl, rfl, rfl, ?_, ?_, ?_, ?_⟩ <;>
    simp [get_id, List.lookup, ProjectRegistryTag.id_attr,
      ProjectIssue.id_attr, ProjectIssueLink.id_attr, RESTObject.id_attr]

/-- C1: creating a project issue with data containing only `title` sends a
POST whose body contains only `title`; data without `title` fails with a
required-field error and issues no request. -/
theorem C1_project_issue_create (path : String) (kwargs sd : AttrMap)
    (v : Value) (data : AttrMap) (hmiss : data.lookup "title" = none) :
    (createOp ProjectIssueManager.create_attrs path [("title", v)] kwargs
        sd).1 =
      [{ method := .post, path := path, query_data := [],
         post_data := [("title", v)], kwargs := kwargs }] ∧
    (createOp ProjectIssueManager.create_attrs path data kwargs sd).1 = [] ∧
    ∃ e, (createOp ProjectIssueManager.create_attrs path data kwargs sd).2 =
      .error e := by
  have hok : checkMissingCreateAttrs ProjectIssueManager.create_attrs
      [("title", v)] = .ok () := by
    apply (checkMissingCreateAttrs_ok_iff _ _).mpr
    intro k hk
    simp only [ProjectIssueManager.create_attrs, List.mem_singleton] at hk
    subst hk
    simp
  obtain ⟨e, he⟩ := checkMissingCreateAttrs_error
    ProjectIssueManager.create_attrs data "title"
    (by simp [ProjectIssueManager.create_attrs]) hmiss
  refine ⟨?_, ?_, ⟨e, ?_⟩⟩
  · simp only [createOp, hok]
    simp [filterKnownAttrs, ProjectIssueManager.create_attrs]
  · simp only [createOp, he]
  · simp only [createOp, he]

/-- C1 witness: concrete create calls, one with only `title`, one with
empty data. -/
theorem C1_witness :
    ([] : AttrMap).lookup "title" = none ∧
    (createOp ProjectIssueManager.create_attrs "/projects/1/issues"
        [("title", Value.str "bug")] [] [("iid", Value.int 1)]).1 =
      [{ method := .post, path := "/projects/1/issues", query_data := [],
         post_data := [("title", Value.str "bug")], kwargs := [] }] ∧
    (createOp ProjectIssueManager.create_attrs "/projects/1/issues" []
        [] [("iid", Value.int 1)]).1 = [] := by
  have h := C1_project_issue_create "/projects/1/issues" []
    [("iid", Value.int 1)] (Value.str "bug") [] (by decide)
  exact ⟨by decide, h.1, h.2.1⟩

/-- C6: `ProjectIssueLinkManager.create` with either required field missing
fails before any request; with both present it issues exactly one POST and
returns the pair built from the response's `source_issue` and
`target_issue`, in that order. -/
theorem C6_issue_link_create (path : String) (dmiss dok kwargs : AttrMap)
    (sd : LinkServerData)
    (hmiss : dmiss.lookup "target_project_id" = none ∨
      dmiss.lookup "target_issue_iid" = none)
    (hok1 : (dok.lookup "target_project_id").isSome)
    (hok2 : (dok.lookup "target_issue_iid").isSome) :
    ((ProjectIssueLinkManager.create path dmiss kwargs sd).1 = [] ∧
     ∃ e, (ProjectIssueLinkManager.create path dmiss kwargs sd).2 =
       .error e) ∧
    (ProjectIssueLinkManager.create path dok kwargs sd).1 =
      [{ method := .post, path := path, query_data := [],
         post_data := dok, kwargs := kwargs }] ∧
    (ProjectIssueLinkManager.create path dok kwargs sd).2 =
      .ok (sd.source_issue, sd.target_issue) := by
  have herr : ∃ e, checkMissingCreateAttrs
      ProjectIssueLinkManager.create_attrs dmiss = .error e := by
    rcases hmiss with h | h
    · exact checkMissingCreateAttrs_error _ _ "target_project_id"
        (by simp [ProjectIssueLinkManager.create_attrs]) h
    · exact checkMissingCreateAttrs_error _ _ "target_issue_iid"
        (by simp [ProjectIssueLinkManager.create_attrs]) h
  obtain ⟨e, he⟩ := herr
  have hok : checkMissingCreateAttrs ProjectIssueLinkManager.create_attrs
      dok = .ok () := by
    apply (checkMissingCreateAttrs_ok_iff _ _).mpr
    intro k hk
    simp only [ProjectIssueLinkManager.create_attrs,
      List.mem_cons, List.mem_singleton, List.not_mem_nil, or_false] at hk
    rcases hk with rfl | rfl
    · exact hok1
    · exact hok2
  refine ⟨⟨?_, ⟨e, ?_⟩⟩, ?_, ?_⟩ <;>
    simp [ProjectIssueLinkManager.create, he, hok]

/-- C6 witness: a concrete link creation with both required fields, and one
with empty data. -/
theorem C6_witness :
    (ProjectIssueLinkManager.create "/projects/1/issues/2/links"
        [("target_project_id", Value.int 3), ("target_issue_iid", Value.int 4)]
        [] ⟨[("iid", Value.int 2)], [("iid", Value.int 4)]⟩).2 =
      .ok ([("iid", Value.int 2)], [("iid", Value.int 4)]) ∧
    (ProjectIssueLinkManager.create "/projects/1/issues/2/links" [] []
        ⟨[("iid", Value.int 2)], [("iid", Value.int 4)]⟩).1 = [] := by
  have h := C6_issue_link_create "/projects/1/issues/2/links" []
    [("target_project_id", Value.int 3), ("target_issue_iid", Value.int 4)]
    [] ⟨[("iid", Value.int 2)], [("iid", Value.int 4)]⟩
    (Or.inl (by decide)) (by decide) (by decide)
  exact ⟨h.2.2, h.1.1⟩

/-- C3: `ProjectIssue.move` issues exactly one POST to
`{manager path}/{iid}/move` with body `to_project_id`, then replaces the
local attributes with the server's response. -/
theorem C3_issue_move (managerPath : String) (issue : AttrMap) (X : Value)
    (kwargs sd : AttrMap) (i : Value) (h : issue.lookup "iid" = some i) :
    ProjectIssue.move managerPath issue X kwargs sd =
      .ok ([{ method := .post,
              path := managerPath ++ "/" ++ i.toStr ++ "/move",
              query_data := [], post_data := [("to_project_id", X)],
              kwargs := kwargs }], update_attrs sd) := by
  simp [ProjectIssue.move, get_id, ProjectIssue.id_attr, h]

/-- C3 witness: moving a concrete issue to project 42. -/
theorem C3_witness :
    ([("iid", Value.int 1)] : AttrMap).lookup "iid" = some (Value.int 1) ∧
    ProjectIssue.move "/projects/1/issues" [("iid", Value.int 1)]
        (Value.int 42) [] [("project_id", Value.int 42)] =
      .ok ([{ method := .post,
              path := "/projects/1/issues" ++ "/" ++ (Value.int 1).toStr ++
                "/move",
              query_data := [],
              post_data := [("to_project_id", Value.int 42)],
              kwargs := [] }],
           update_attrs [("project_id", Value.int 42)]) :=
  ⟨by decide,
   C3_issue_move "/projects/1/issues" [("iid", Value.int 1)] (Value.int 42)
     [] [("project_id", Value.int 42)] (Value.int 1) (by decide)⟩

/-- C10: `related_merge_requests` and `closed_by` each issue exactly one
GET and return the deserialized response directly, leaving the issue's
attributes unchanged. -/
theorem C10_related_mrs_closed_by (managerPath : String)
    (issue kwargs : AttrMap) (sd : List AttrMap) (i : Value)
    (h : issue.lookup "iid" = some i) :
    ProjectIssue.related_merge_requests managerPath issue kwargs sd =
      .ok ([{ method := .get,
              path := managerPath ++ "/" ++ i.toStr ++
                "/related_merge_requests",
              query_data := [], post_data := [], kwargs := kwargs }],
           issue, sd) ∧
    ProjectIssue.closed_by managerPath issue kwargs sd =
      .ok ([{ method := .get,
              path := managerPath ++ "/" ++ i.toStr ++ "/closed_by",
              query_data := [], post_data := [], kwargs := kwargs }],
           issue, sd) := by
  constructor <;>
    simp [ProjectIssue.related_merge_requests, ProjectIssue.closed_by,
      get_id, ProjectIssue.id_attr, h]

/-- C10 witness: a concrete issue with iid 7. -/
theorem C10_witness :
    ([("iid", Value.int 7), ("title", Value.str "t")] : AttrMap).lookup
        "iid" = some (Value.int 7) ∧
    ProjectIssue.related_merge_requests "/projects/1/issues"
        [("iid", Value.int 7), ("title", Value.str "t")] []
        [[("id", Value.int 3)]] =
      .ok ([{ method := .get,
              path := "/projects/1/issues" ++ "/" ++ (Value.int 7).toStr ++
                "/related_merge_requests",
              query_data := [], post_data := [], kwargs := [] }],
           [("iid", Value.int 7), ("title", Value.str "t")],
           [[("id", Value.int 3)]]) :=
  ⟨by decide,
   (C10_related_mrs_closed_by "/projects/1/issues"
     [("iid", Value.int 7), ("title", Value.str "t")] []
     [[("id", Value.int 3)]] (Value.int 7) (by decide)).1⟩

/-- C4: for list operations on `IssueManager`, `GroupIssueManager`,
`ProjectIssueManager` and `GroupIterationManager`, a supplied filter key
outside the manager's `_list_filters` allow-list is excluded from the
outgoing query, and keys in the allow-list are passed through. -/
theorem C4_list_filters :
    ∀ fl ∈ [IssueManager.list_filters, GroupIssueManager.list_filters,
      ProjectIssueManager.list_filters, GroupIterationManager.list_filters],
    ∀ (path : String) (kwargs : AttrMap) (k : String) (v : Value),
      ((k, v) ∈ (listOp fl path kwargs).query_data ↔
        (k, v) ∈ kwargs ∧ k ∈ fl) := by
  intro fl _ path kwargs k v
  simp [listOp, listQuery, List.mem_filter]

/-- C4 witness: a query with one allowed key (`state`) and one unknown key
(`foo`) against `IssueManager`. -/
theorem C4_witness :
    (("foo", Value.int 1) ∈ (listOp IssueManager.list_filters "/issues"
        [("state", Value.str "opened"), ("foo", Value.int 1)]).query_data ↔
      (("foo", Value.int 1) ∈ ([("state", Value.str "opened"),
          ("foo", Value.int 1)] : AttrMap) ∧
        "foo" ∈ IssueManager.list_filters)) :=
  C4_list_filters IssueManager.list_filters (List.mem_cons_self _ _)
    "/issues" [("state", Value.str "opened"), ("foo", Value.int 1)]
    "foo" (Value.int 1)

/-- A key is looked up successfully in an attribute map iff it occurs among
the map's keys. -/
theorem lookup_isSome_of_mem_keys {l : AttrMap} {k : String}
    (h : k ∈ l.map Prod.fst) : (l.lookup k).isSome := by
  rw [List.lookup_isSome_iff]
  obtain ⟨p, hp, hk⟩ := List.mem_map.mp h
  exact ⟨p, hp, by simp [hk]⟩

/-- If the parent supplies every attribute named in `_from_parent_attrs`,
manager construction succeeds and binds exactly the mapping's keys. -/
theorem bindingsFromParent_ok (fpa : List (String × String))
    (parent : AttrMap) (h : ∀ e ∈ fpa, (parent.lookup e.2).isSome) :
    ∃ b, bindingsFromParent fpa parent = .ok b ∧
      b.map Prod.fst = fpa.map Prod.fst := by
  induction fpa with
  | nil => exact ⟨[], rfl, rfl⟩
  | cons e rest ih =>
    obtain ⟨k, pk⟩ := e
    have h1 := h (k, pk) (List.mem_cons_self _ _)
    obtain ⟨v, hv⟩ := Option.isSome_iff_exists.mp h1
    obtain ⟨b, hb, hkeys⟩ := ih fun x hx => h x (List.mem_cons_of_mem _ hx)
    refine ⟨(k, v) :: b, ?_, ?_⟩
    · simp [bindingsFromParent, hv, hb, Except.map]
    · simp [hkeys]

/-- A parent attribute missing from the `_from_parent_attrs` mapping makes
manager construction fail with an error. -/
theorem bindingsFromParent_error (fpa : List (String × String))
    (parent : AttrMap) (e : String × String) (he : e ∈ fpa)
    (hn : parent.lookup e.2 = none) :
    ∃ err, bindingsFromParent fpa parent = .error err := by
  induction fpa with
  | nil => exact absurd he (List.not_mem_nil _)
  | cons hd rest ih =>
    obtain ⟨k, pk⟩ := hd
    cases hl : parent.lookup pk with
    | none => exact ⟨pk, by simp [bindingsFromParent, hl]⟩
    | some v =>
      have hrest : e ∈ rest := by
        rcases List.mem_cons.mp he with heq | hmem
        · subst heq
          simp only at hn
          rw [hn] at hl
          cases hl
        · exact hmem
      obtain ⟨err, herr⟩ := ih hrest
      exact ⟨err, by simp [bindingsFromParent, hl, herr, Except.map]⟩

/-- Substitution succeeds and leaves no placeholder when every placeholder
of the template has a binding. -/
theorem renderSegs_ok (attrs : AttrMap) (segs : List Seg)
    (h : ∀ n ∈ placeholders segs, (attrs.lookup n).isSome) :
    ∃ out, renderSegs attrs segs = .ok out ∧ hasPh out = false := by
  induction segs with
  | nil => exact ⟨[], rfl, rfl⟩
  | cons s rest ih =>
    cases s with
    | lit t =>
      obtain ⟨out, hout, hph⟩ := ih fun n hn =>
        h n (by simpa [placeholders] using hn)
      exact ⟨.lit t :: out, by simp [renderSegs, hout, Except.map],
        by simp [hasPh, Seg.isPh] at hph ⊢; exact hph⟩
    | ph n =>
      have hn : (attrs.lookup n).isSome := h n (by simp [placeholders])
      obtain ⟨v, hv⟩ := Option.isSome_iff_exists.mp hn
      obtain ⟨out, hout, hph⟩ := ih fun m hm =>
        h m (by simp [placeholders] at hm ⊢; exact Or.inr hm)
      exact ⟨.lit v.toStr :: out,
        by simp [renderSegs, hv, hout, Except.map],
        by simp [hasPh, Seg.isPh] at hph ⊢; exact hph⟩

/-- Full path computation succeeds with no unresolved placeholder when the
template's placeholders are covered by `_from_parent_attrs` and the parent
supplies every mapped attribute. -/
theorem computeSegs_ok (fpa : List (String × String)) (segs : List Seg)
    (parent : AttrMap)
    (hsub : ∀ n ∈ placeholders segs, n ∈ fpa.map Prod.fst)
    (h : ∀ e ∈ fpa, (parent.lookup e.2).isSome) :
    ∃ out, computeSegs fpa segs parent = .ok out ∧ hasPh out = false := by
  obtain ⟨b, hb, hkeys⟩ := bindingsFromParent_ok fpa parent h
  obtain ⟨out, hout, hph⟩ := renderSegs_ok b segs fun n hn =>
    lookup_isSome_of_mem_keys (by rw [hkeys]; exact hsub n hn)
  exact ⟨out, by simp [computeSegs, hb, hout, Except.bind], hph⟩

/-- Full path computation fails with an error when a mapped parent
attribute is missing. -/
theorem computeSegs_error (fpa : List (String × String)) (segs : List Seg)
    (parent : AttrMap) (e : String × String) (he : e ∈ fpa)
    (hn : parent.lookup e.2 = none) :
    ∃ err, computeSegs fpa segs parent = .error err := by
  obtain ⟨err, herr⟩ := bindingsFromParent_error fpa parent e he hn
  exact ⟨err, by simp [computeSegs, herr, Except.bind]⟩

/-- C5: for every manager defined in these files, a parent supplying every
attribute of `_from_parent_attrs` makes path resolution succeed with no
unresolved placeholder, and a missing attribute makes it a detectable
error. -/
theorem C5_path_resolution :
    ∀ mp ∈ allManagers, ∀ parent : AttrMap,
      ((∀ e ∈ mp.1, (parent.lookup e.2).isSome) →
        ∃ out, computeSegs mp.1 mp.2 parent = .ok out ∧
          hasPh out = false) ∧
      (∀ e ∈ mp.1, parent.lookup e.2 = none →
        ∃ err, computeSegs mp.1 mp.2 parent = .error err) := by
  intro mp hmp parent
  refine ⟨fun h => computeSegs_ok mp.1 mp.2 parent ?_ h,
    fun e he hn => computeSegs_error mp.1 mp.2 parent e he hn⟩
  fin_cases hmp <;> decide

/-- C5 witness: `GroupIssueManager` with parent attribute `id = 5`. -/
theorem C5_witness :
    ∃ out, computeSegs GroupIssueManager.from_parent_attrs
        GroupIssueManager.path [("id", Value.int 5)] = .ok out ∧
      hasPh out = false :=
  (C5_path_resolution
    (GroupIssueManager.from_parent_attrs, GroupIssueManager.path)
    (by simp [allManagers]) [("id", Value.int 5)]).1 (by decide)

/-- C7: a tag manager built from a repository parent copies the parent's
`project_id` into its `project_id` binding and the parent's `id` into its
`repository_id` binding, and its path uses exactly those two values in the
template `/projects/%(project_id)s/registry/repositories/%(repository_id)s/tags`. -/
theorem C7_tag_manager_bindings (parent : AttrMap) (p r : Value)
    (hp : parent.lookup "project_id" = some p)
    (hr : parent.lookup "id" = some r) :
    bindingsFromParent ProjectRegistryTagManager.from_parent_attrs parent =
      .ok [("project_id", p), ("repository_id", r)] ∧
    computePath ProjectRegistryTagManager.from_parent_attrs
        ProjectRegistryTagManager.path parent =
      .ok ("/projects/" ++ p.toStr ++ "/registry/repositories/" ++
        r.toStr ++ "/tags") ∧
    rawTemplate ProjectRegistryTagManager.path =
      "/projects/%(project_id)s/registry/repositories/%(repository_id)s/tags" := by
  have hb : bindingsFromParent ProjectRegistryTagManager.from_parent_attrs
      parent = .ok [("project_id", p), ("repository_id", r)] := by
    simp [bindingsFromParent, ProjectRegistryTagManager.from_parent_attrs,
      hp, hr, Except.map]
  refine ⟨hb, ?_, by decide⟩
  simp [computePath, computeSegs, hb, renderSegs,
    ProjectRegistryTagManager.path, Except.bind, Except.map, rawTemplate,
    Seg.raw, List.lookup, String.append_assoc]

/-- C7 witness: a repository parent with `project_id = 1` and `id = 2`. -/
theorem C7_witness :
    ([("project_id", Value.int 1), ("id", Value.int 2)] :
        AttrMap).lookup "project_id" = some (Value.int 1) ∧
    bindingsFromParent ProjectRegistryTagManager.from_parent_attrs
        [("project_id", Value.int 1), ("id", Value.int 2)] =
      .ok [("project_id", Value.int 1), ("repository_id", Value.int 2)] :=
  ⟨by decide,
   (C7_tag_manager_bindings
     [("project_id", Value.int 1), ("id", Value.int 2)]
     (Value.int 1) (Value.int 2) (by decide) (by decide)).1⟩

end Gitlab
